import Mathlib

/-!
Shallow embedding of src/InfluencerScraper.py: the discovery → dedup →
enrichment → engagement-scoring → persistence pipeline of `main`, together
with the helper functions it calls.  Upstream (Apify) calls are modelled as
an explicit environment of response functions; a call that raises is an
`Except.error` result.  Python ints become `Int`, Python floats in the
engagement computation become exact rationals (`ℚ`), and the Google-Sheets
worksheets become lists of rows.  The orchestrator additionally records a
trace of the external-call and append events it performs, so that
ordering/absence-of-call properties can be stated.
-/

namespace InfluencerScraper

/-- A post item as consumed by the median computations.  `time` embeds the
sort key (`takenAtTimestamp` for Instagram posts, `createTime` for TikTok
posts), `likes` embeds `likesCount` / `diggCount`, and `comments` embeds
`commentsCount` / `commentCount`, each already defaulted to 0 as the source
does via `.get(key, 0)`. -/
structure Post where
  time : Int
  likes : Int
  comments : Int
deriving DecidableEq

/-- Python's `posts.sort(key=lambda x: x.get(<timestamp>, 0), reverse=True)`
orders by recency descending and is stable on ties. -/
def timeGe (a b : Post) : Prop := b.time ≤ a.time

instance : DecidableRel timeGe := fun a b => inferInstanceAs (Decidable (b.time ≤ a.time))

instance : IsTotal Post timeGe := ⟨fun a b => le_total b.time a.time⟩

instance : IsTrans Post timeGe := ⟨fun _ _ _ h1 h2 => le_trans h2 h1⟩

/-- Stable sort by recency descending, as `list.sort(key=..., reverse=True)`
does (insertion sort with this relation is stable, like Python's sort). -/
def sortByTimeDesc (ps : List Post) : List Post :=
  List.insertionSort timeGe ps

/-- Ascending sort of the integer values handed to `np.median`. -/
def sortedAsc (l : List Int) : List Int :=
  List.insertionSort (fun a b => a ≤ b) l

/-- The value `int(np.median(l))` computed at source lines 142-143 / 235-236:
`np.median` sorts ascending and takes the middle element (odd length) or the
mean of the two middle elements (even length); `int(...)` truncates the
resulting float toward zero, which for the mean of two integers is exactly
truncating division by 2 (`Int.tdiv` truncates toward zero). -/
def medianTrunc (l : List Int) : Int :=
  let s := sortedAsc l
  if l.length % 2 = 1 then s.getD (l.length / 2) 0
  else Int.tdiv (s.getD (l.length / 2 - 1) 0 + s.getD (l.length / 2) 0) 2

/-- The exact (untruncated) median of the same values, as a rational: the
claim C10's "true median", stated from the spec's words for comparison with
the truncated value the code persists. -/
def trueMedian (l : List Int) : ℚ :=
  let s := sortedAsc l
  if l.length % 2 = 1 then ((s.getD (l.length / 2) 0 : Int) : ℚ)
  else ((s.getD (l.length / 2 - 1) 0 + s.getD (l.length / 2) 0 : Int) : ℚ) / 2

/-- Common body of `get_last_5_posts_stats_instagram` (lines 133-144) and
`get_last_5_posts_stats_tiktok` (lines 225-237) once the post list is in
hand: empty → (0, 0); otherwise sort by recency descending, keep the first
5, and return the truncated medians of their like and comment counts.  The
inner emptiness test mirrors `if not likes_list: return 0, 0`. -/
def statsOf (posts : List Post) : Int × Int :=
  if posts = [] then (0, 0)
  else
    let recent := (sortByTimeDesc posts).take 5
    let likes_list := recent.map Post.likes
    let comments_list := recent.map Post.comments
    if likes_list = [] then (0, 0)
    else (medianTrunc likes_list, medianTrunc comments_list)

/-- One raw profile item of the Instagram profile actor's dataset, with the
defaults the source applies via `.get(key, default)` (lines 113-119). -/
structure RawProfile where
  profilePicUrl : String
  postsCount : Int
  followersCount : Int
  biography : String
deriving DecidableEq

/-- The dict returned by `scrape_profile_info_instagram` (lines 113-119). -/
structure ProfileData where
  username : String
  profile_pic_url : String
  posts_count : Int
  followers_count : Int
  biography : String
deriving DecidableEq

/-- A row of the "Main" worksheet (append_profile_to_sheet_* lines 243-253 /
261-271), in header order; `engagement_rate` is kept exact here (the source
renders it to two decimals only at the string boundary). -/
structure QRecord where
  profile_pic_url : String
  username : String
  posts_count : Int
  followers_count : Int
  biography : String
  profile_link : String
  median_comments : Int
  median_likes : Int
  engagement_rate : ℚ
deriving DecidableEq

/-- A row of the "Hashtags" worksheet (append_hashtags_to_sheet line 282). -/
structure AuditRow where
  timestamp : String
  inputHashtags : String
  usedHashtags : String
deriving DecidableEq

/-- External-call and append events the orchestrator performs, recorded in
order so that call-ordering and absence-of-call properties can be stated. -/
inductive Event where
  | profileFetch (u : String)
  | activityFetch (u : String)
  | appendRecord (u : String)
  | appendAudit
deriving DecidableEq

/-- The worksheet contents plus the event trace of the current invocation.
`mainRows` and `hashtagRows` are the durable, append-only stores. -/
structure RunState where
  mainRows : List QRecord
  hashtagRows : List AuditRow
  trace : List Event
deriving DecidableEq

/-- The upstream world as the Instagram flow of `main` observes it: each
Apify call either raises (`Except.error`) or yields its dataset items.
`hashtagItems` gives, per hashtag, the items of the hashtag-scraper run,
each carrying its optional `ownerUsername`; `profileItems` gives the
profile-scraper items for a username; `postItems` gives the posts-scraper
items; `now` is the timestamp string `datetime.now().strftime(...)`. -/
structure Env where
  hashtagItems : String → Except String (List (Option String))
  profileItems : String → Except String (List RawProfile)
  postItems : String → Except String (List Post)
  now : String

/-- Source lines 76-98: iterate over the hashtags, and for each one that
scrapes successfully add every item's `ownerUsername` to the accumulated
set; a hashtag whose scrape raises is logged and skipped.  The Python `set`
is determinized as an insertion-ordered duplicate-free list. -/
def fetch_owner_usernames_from_hashtags_instagram (env : Env) (hashtags : List String) :
    List String :=
  hashtags.foldl
    (fun acc htag =>
      match env.hashtagItems htag with
      | Except.error _ => acc
      | Except.ok items =>
          items.foldl
            (fun acc2 item =>
              match item with
              | some u => if u ∈ acc2 then acc2 else acc2 ++ [u]
              | none => acc2)
            acc)
    []

/-- Source lines 100-122: fetch the profile items for a username; a raised
error or an empty dataset yields `none`, otherwise the first item is turned
into the profile dict (with defaults already applied). -/
def scrape_profile_info_instagram (env : Env) (username : String) : Option ProfileData :=
  match env.profileItems username with
  | Except.error _ => none
  | Except.ok [] => none
  | Except.ok (d :: _) =>
      some ⟨username, d.profilePicUrl, d.postsCount, d.followersCount, d.biography⟩

/-- Source lines 124-147: fetch the recent posts for a username; a raised
error yields (0, 0), otherwise the medians of the 5 most recent posts. -/
def get_last_5_posts_stats_instagram (env : Env) (username : String) : Int × Int :=
  match env.postItems username with
  | Except.error _ => (0, 0)
  | Except.ok posts => statsOf posts

/-- The TikTok side-channel `posts_by_user` dict: username → list of post
items, keys unique (built with `setdefault`). -/
abbrev PostsMap := List (String × List Post)

/-- Python `posts_by_user.get(username, [])` (line 224). -/
def lookupPosts (m : PostsMap) (u : String) : List Post :=
  (Option.map Prod.snd (m.find? (fun e => e.1 == u))).getD []

/-- The in-place `user_posts.sort(...)` at line 229 mutates the very list
object stored in the dict: the entry for `u` now holds the sorted list. -/
def setPosts (m : PostsMap) (u : String) (ps : List Post) : PostsMap :=
  m.map (fun e => if e.1 == u then (u, ps) else e)

/-- Source lines 219-237: look the username up in the side-channel map; no
posts → (0, 0) and the map untouched; otherwise sort that list in place by
`createTime` descending (so the map's entry for the username is now the
sorted list) and return the truncated medians of the 5 most recent posts.
Returns the medians together with the post-call contents of the map. -/
def get_last_5_posts_stats_tiktok (u : String) (m : PostsMap) : (Int × Int) × PostsMap :=
  let user_posts := lookupPosts m u
  if user_posts = [] then ((0, 0), m)
  else
    let sorted := sortByTimeDesc user_posts
    let m' := setPosts m u sorted
    let recent := sorted.take 5
    let likes_list := recent.map Post.likes
    let comments_list := recent.map Post.comments
    if likes_list = [] then (((0, 0) : Int × Int), m')
    else ((medianTrunc likes_list, medianTrunc comments_list), m')

/-- Modelled from the spec: `user_already_in_sheet` is called by `main` at
source lines 331 and 352 but its definition is absent from src.  Spec §4.2
describes it (`AlreadyProcessed(identity)`) as "backed by a read path into
the durable store's existing identity column": it reports whether the
username already appears in the username column of the "Main" worksheet. -/
def user_already_in_sheet (rows : List QRecord) (username : String) : Bool :=
  rows.any (fun r => r.username == username)

/-- Filtering thresholds set at source lines 323-325. -/
def min_followers : Int := 1000

/-- Minimum posts threshold (line 324). -/
def min_posts : Int := 20

/-- Minimum engagement-rate threshold in percent (line 325). -/
def min_engagement : ℚ := 0.25

/-- The engagement-rate computation at lines 339-342 / 360-363: a percentage
when `followers_count > 0`, else 0 (the guarded branch never divides). -/
def engagement_rate_of (median_likes median_comments followers_count : Int) : ℚ :=
  if followers_count > 0 then
    (((median_likes : ℚ) + (median_comments : ℚ)) / (followers_count : ℚ)) * 100
  else 0

/-- The row built by `append_profile_to_sheet_instagram` (lines 261-271). -/
def mkInstaRow (pd : ProfileData) (median_comments median_likes : Int)
    (engagement_rate : ℚ) : QRecord :=
  ⟨pd.profile_pic_url, pd.username, pd.posts_count, pd.followers_count, pd.biography,
    "https://www.instagram.com/" ++ pd.username, median_comments, median_likes,
    engagement_rate⟩

/-- Appending a qualifying row to the "Main" worksheet (lines 257-273),
with the append event recorded. -/
def append_profile_to_sheet_instagram (st : RunState) (pd : ProfileData)
    (median_comments median_likes : Int) (engagement_rate : ℚ) : RunState :=
  { st with
    mainRows := st.mainRows ++ [mkInstaRow pd median_comments median_likes engagement_rate],
    trace := st.trace ++ [Event.appendRecord pd.username] }

/-- Appending the audit row to the "Hashtags" worksheet (lines 275-286),
with the append event recorded. -/
def append_hashtags_to_sheet (env : Env) (st : RunState) (input_str : String)
    (hashtags : List String) : RunState :=
  { st with
    hashtagRows := st.hashtagRows ++
      [⟨env.now, input_str, String.intercalate (", ") hashtags⟩],
    trace := st.trace ++ [Event.appendAudit] }

/-- One iteration of the Instagram loop of `main` (lines 330-346).  The
dedup guard is Python's `if username and user_already_in_sheet(username)`:
skip only when the username is non-empty (truthy) and already stored.  The
profile fetch and the activity fetch leave their events in the trace at the
moment the source performs the corresponding call. -/
def processUserInstagram (env : Env) (st : RunState) (username : String) : RunState :=
  if (username != ("")) && user_already_in_sheet st.mainRows username then st
  else
    let st1 := { st with trace := st.trace ++ [Event.profileFetch username] }
    match scrape_profile_info_instagram env username with
    | none => st1
    | some profile_data =>
        if profile_data.followers_count > min_followers ∧
            profile_data.posts_count > min_posts then
          let st2 := { st1 with trace := st1.trace ++ [Event.activityFetch username] }
          let stats := get_last_5_posts_stats_instagram env username
          let engagement_rate :=
            engagement_rate_of stats.1 stats.2 profile_data.followers_count
          if engagement_rate < min_engagement then st2
          else append_profile_to_sheet_instagram st2 profile_data stats.2 stats.1
              engagement_rate
        else st1

/-- The Instagram identity iteration of `main` (lines 329-346): discover,
then fold the per-identity processing over the discovered set. -/
def runInstagramUsers (env : Env) (usernames : List String) (st : RunState) : RunState :=
  usernames.foldl (processUserInstagram env) st

/-- Drop leading whitespace characters from a character list. -/
def dropWs : List Char → List Char
  | [] => []
  | c :: cs => if c.isWhitespace then dropWs cs else c :: cs

/-- Python's `str.strip()` (no argument): remove leading and trailing
whitespace.  Modelled directly on character lists so that it is structurally
recursive. -/
def pyStrip (s : String) : String :=
  String.mk ((dropWs ((dropWs s.data).reverse)).reverse)

/-- Helper for `pySplitComma`: split a character list at every comma. -/
def splitCommaAux : List Char → List Char → List (List Char)
  | [], acc => [acc.reverse]
  | c :: cs, acc =>
      if c = ',' then acc.reverse :: splitCommaAux cs []
      else splitCommaAux cs (c :: acc)

/-- Python's `str.split(",")`: split at every comma, keeping empty pieces
("a,,b" → ["a", "", "b"], "" → [""]). -/
def pySplitComma (s : String) : List String :=
  (splitCommaAux s.data []).map String.mk

/-- Python's `[tag.strip() for tag in hashtags_input.split(",") if
tag.strip()]` (line 311): strip each comma-separated piece and keep the
non-empty (truthy) ones. -/
def parseHashtags (input : String) : List String :=
  ((pySplitComma input).map pyStrip).filter (fun t => t ≠ "")

/-- The body of the "Scrape Influencers" button for the Instagram platform
(lines 305-346): validate the raw input, validate the normalized hashtag
list, append the audit row, discover, then iterate over the identities. -/
def mainInstagram (env : Env) (hashtags_input : String) (st : RunState) : RunState :=
  if pyStrip hashtags_input = "" then st
  else
    let hashtags := parseHashtags hashtags_input
    if hashtags = [] then st
    else
      let st1 := append_hashtags_to_sheet env st hashtags_input hashtags
      runInstagramUsers env
        (fetch_owner_usernames_from_hashtags_instagram env hashtags) st1

/-! Helper lemmas about the per-identity step and the identity iteration. -/

lemma processUser_hashtagRows (env : Env) (st : RunState) (u : String) :
    (processUserInstagram env st u).hashtagRows = st.hashtagRows := by
  unfold processUserInstagram append_profile_to_sheet_instagram
  dsimp only
  repeat' split
  all_goals rfl

lemma processUser_trace_extend (env : Env) (st : RunState) (u : String) :
    ∃ ext, (processUserInstagram env st u).trace = st.trace ++ ext ∧
      Event.appendAudit ∉ ext := by
  unfold processUserInstagram append_profile_to_sheet_instagram
  dsimp only
  split
  · exact ⟨[], by simp⟩
  split
  case h_1 => exact ⟨[Event.profileFetch u], by simp⟩
  case h_2 pd heq =>
    split
    · split
      · exact ⟨[Event.profileFetch u, Event.activityFetch u], by simp⟩
      · exact ⟨[Event.profileFetch u, Event.activityFetch u,
          Event.appendRecord pd.username], by simp⟩
    · exact ⟨[Event.profileFetch u], by simp⟩

lemma processUser_mainRows_congr (env : Env) (u : String) (st st' : RunState)
    (h : st.mainRows = st'.mainRows) :
    (processUserInstagram env st u).mainRows = (processUserInstagram env st' u).mainRows := by
  unfold processUserInstagram append_profile_to_sheet_instagram
  dsimp only
  rw [h]
  repeat' split
  all_goals first | rfl | exact h

lemma runUsers_hashtagRows (env : Env) (us : List String) :
    ∀ st : RunState, (runInstagramUsers env us st).hashtagRows = st.hashtagRows := by
  induction us with
  | nil => intro st; rfl
  | cons u us ih =>
      intro st
      have h := ih (processUserInstagram env st u)
      simpa [runInstagramUsers, processUser_hashtagRows] using h

lemma runUsers_trace_extend (env : Env) (us : List String) :
    ∀ st : RunState, ∃ ext, (runInstagramUsers env us st).trace = st.trace ++ ext ∧
      Event.appendAudit ∉ ext := by
  induction us with
  | nil => intro st; exact ⟨[], by simp [runInstagramUsers], by simp⟩
  | cons u us ih =>
      intro st
      obtain ⟨e1, h1, h1n⟩ := processUser_trace_extend env st u
      obtain ⟨e2, h2, h2n⟩ := ih (processUserInstagram env st u)
      refine ⟨e1 ++ e2, ?_, ?_⟩
      · show (runInstagramUsers env us (processUserInstagram env st u)).trace = _
        rw [h2, h1, List.append_assoc]
      · simp only [List.mem_append]
        rintro (h | h)
        · exact h1n h
        · exact h2n h

lemma runUsers_mainRows_congr (env : Env) (us : List String) :
    ∀ st st' : RunState, st.mainRows = st'.mainRows →
      (runInstagramUsers env us st).mainRows = (runInstagramUsers env us st').mainRows := by
  induction us with
  | nil => intro st st' h; exact h
  | cons u us ih =>
      intro st st' h
      exact ih _ _ (processUser_mainRows_congr env u st st' h)

/-! Claim theorems. -/

/-- Concrete environment whose every upstream call returns an empty dataset. -/
def envTriv : Env :=
  ⟨fun _ => Except.ok [], fun _ => Except.ok [], fun _ => Except.ok [], "t"⟩

/-- A stored row whose username is "bob". -/
def rowBob : QRecord := ⟨"", "bob", 0, 0, "", "", 0, 0, 0⟩

/-- A store already containing the identity "bob". -/
def stBob : RunState := ⟨[rowBob], [], []⟩

/-- C1 (amended: restricted to non-empty usernames): for every discovered
identity with a non-empty username already present in the durable store, the
dedup check returns true and the per-identity step performs no enrichment
work at all — the state (rows and trace) is returned unchanged, so no
profile fetch, activity fetch or append happens, and the dedup test is the
first and only thing evaluated for that identity. -/
theorem c1_dedup_skip (env : Env) (st : RunState) (u : String) (row : QRecord)
    (hu : u ≠ "") (hrow : row ∈ st.mainRows) (hname : row.username = u) :
    user_already_in_sheet st.mainRows u = true ∧ processUserInstagram env st u = st := by
  have hd : user_already_in_sheet st.mainRows u = true := by
    unfold user_already_in_sheet
    rw [List.any_eq_true]
    exact ⟨row, hrow, by simp [hname]⟩
  have hcond : ((u != ("")) && user_already_in_sheet st.mainRows u) = true := by
    simp [hd, bne_iff_ne, hu]
  refine ⟨hd, ?_⟩
  simp [processUserInstagram, hcond]

/-- C1 witness: the theorem applied to a concrete store containing "bob". -/
theorem c1_dedup_skip_witness :
    (("bob") ≠ ("") ∧ rowBob ∈ stBob.mainRows ∧ rowBob.username = ("bob")) ∧
      user_already_in_sheet stBob.mainRows ("bob") = true ∧
      processUserInstagram envTriv stBob ("bob") = stBob :=
  ⟨⟨by decide, by decide, rfl⟩,
    c1_dedup_skip envTriv stBob ("bob") rowBob (by decide) (by decide) rfl⟩

/-- Concrete environment whose hashtag scrape discovers the empty username. -/
def envEmptyU : Env :=
  ⟨fun _ => Except.ok [some ("")], fun _ => Except.ok [], fun _ => Except.ok [], "t"⟩

/-- A stored row whose username is the empty string. -/
def rowEmptyU : QRecord := ⟨"", "", 0, 0, "", "", 0, 0, 0⟩

/-- A store already containing the empty-username identity. -/
def stEmptyU : RunState := ⟨[rowEmptyU], [], []⟩

/-- C1 counterexample: the claim as stated is false for the empty username.
The guard at source line 331 is `if username and user_already_in_sheet(...)`,
so a discovered empty username that is already present in the durable store
is NOT skipped: the dedup check returns true, yet the run still performs the
profile fetch for it (the claim requires no enrichment call at all). -/
theorem c1_dedup_skip_cex :
    fetch_owner_usernames_from_hashtags_instagram envEmptyU [("#a")] = [("")] ∧
    user_already_in_sheet stEmptyU.mainRows ("") = true ∧
    (runInstagramUsers envEmptyU
        (fetch_owner_usernames_from_hashtags_instagram envEmptyU [("#a")])
        stEmptyU).trace = [Event.profileFetch ("")] := by
  decide

lemma processUser_gate_fail (env : Env) (st : RunState) (u : String)
    (pd : ProfileData) (hp : scrape_profile_info_instagram env u = some pd)
    (hgate : pd.followers_count ≤ min_followers ∨ pd.posts_count ≤ min_posts) :
    (processUserInstagram env st u).mainRows = st.mainRows ∧
    ((processUserInstagram env st u).trace = st.trace ∨
      (processUserInstagram env st u).trace = st.trace ++ [Event.profileFetch u]) := by
  have hng : ¬(pd.followers_count > min_followers ∧ pd.posts_count > min_posts) := by
    rcases hgate with h | h
    · exact fun hc => absurd hc.1 (not_lt.mpr h)
    · exact fun hc => absurd hc.2 (not_lt.mpr h)
  unfold processUserInstagram
  split
  · exact ⟨rfl, Or.inl rfl⟩
  · rw [hp]
    refine ⟨?_, Or.inr ?_⟩ <;> simp [if_neg hng]

/-- C4: an identity whose fetched profile fails the eligibility gate
(followers_count ≤ min_followers or posts_count ≤ min_posts) causes no
activity fetch and no persisted record: the main rows are unchanged and the
trace gains at most the profile-fetch event (nothing at all when the dedup
gate already skipped the identity). -/
theorem c4_eligibility_short_circuit (env : Env) (st : RunState) (u : String)
    (pd : ProfileData) (hp : scrape_profile_info_instagram env u = some pd)
    (hgate : pd.followers_count ≤ min_followers ∨ pd.posts_count ≤ min_posts) :
    (processUserInstagram env st u).mainRows = st.mainRows ∧
    ((processUserInstagram env st u).trace = st.trace ∨
      (processUserInstagram env st u).trace = st.trace ++ [Event.profileFetch u]) :=
  processUser_gate_fail env st u pd hp hgate

/-- Concrete environment returning a profile below the follower threshold. -/
def envSmall : Env :=
  ⟨fun _ => Except.ok [], fun _ => Except.ok [⟨"pic", 50, 900, "bio"⟩],
    fun _ => Except.ok [Post.mk 0 1 1], "t"⟩

/-- C4 witness: the theorem applied to a concrete under-threshold profile. -/
theorem c4_eligibility_short_circuit_witness :
    (scrape_profile_info_instagram envSmall ("amy") =
        some ⟨("amy"), "pic", 50, 900, "bio"⟩ ∧ (900 : Int) ≤ min_followers) ∧
      (processUserInstagram envSmall ⟨[], [], []⟩ ("amy")).mainRows = ([] : List QRecord) ∧
      ((processUserInstagram envSmall ⟨[], [], []⟩ ("amy")).trace = ([] : List Event) ∨
        (processUserInstagram envSmall ⟨[], [], []⟩ ("amy")).trace =
          ([] : List Event) ++ [Event.profileFetch ("amy")]) :=
  ⟨⟨rfl, by decide⟩,
    c4_eligibility_short_circuit envSmall ⟨[], [], []⟩ ("amy")
      ⟨("amy"), "pic", 50, 900, "bio"⟩ rfl (Or.inl (by decide))⟩

/-- C6: a profile with zero followers never causes a division fault — the
engagement-rate computation is total and returns 0 for any median values —
and the identity is rejected: no record is persisted for it (indeed, with
followers_count = 0 the eligibility gate already fails). -/
theorem c6_zero_followers (env : Env) (st : RunState) (u : String)
    (pd : ProfileData) (hp : scrape_profile_info_instagram env u = some pd)
    (h0 : pd.followers_count = 0) :
    (∀ ml mc : Int, engagement_rate_of ml mc pd.followers_count = 0) ∧
    (processUserInstagram env st u).mainRows = st.mainRows := by
  constructor
  · intro ml mc
    rw [h0]
    simp [engagement_rate_of]
  · have := processUser_gate_fail env st u pd hp
      (Or.inl (by rw [h0]; decide))
    exact this.1

/-- Concrete environment: discovery finds "zoe", whose profile reports zero
followers. -/
def envZero : Env :=
  ⟨fun _ => Except.ok [some ("zoe")], fun _ => Except.ok [⟨"pic", 50, 0, "bio"⟩],
    fun _ => Except.ok [], "t"⟩

/-- C6 witness: the theorem applied to a concrete zero-follower profile. -/
theorem c6_zero_followers_witness :
    (scrape_profile_info_instagram envZero ("zoe") =
        some ⟨("zoe"), "pic", 50, 0, "bio"⟩) ∧
      (∀ ml mc : Int,
        engagement_rate_of ml mc (ProfileData.mk ("zoe") "pic" 50 0 "bio").followers_count = 0) ∧
      (processUserInstagram envZero ⟨[], [], []⟩ ("zoe")).mainRows = ([] : List QRecord) :=
  ⟨rfl, c6_zero_followers envZero ⟨[], [], []⟩ ("zoe") ⟨("zoe"), "pic", 50, 0, "bio"⟩ rfl rfl⟩

/-- C2: for an identity that passes the dedup gate and whose profile passes
the eligibility gate (followers and posts above the thresholds, hence
followers_count > 0), the engagement rate is exactly
((median_likes + median_comments) / followers_count) * 100, and a record is
appended if and only if that rate is at least min_engagement (0.25); in
particular followers_count = 2000 with medians (10, 5) gives rate 0.75,
which qualifies. -/
theorem c2_engagement_threshold (env : Env) (st : RunState) (u : String)
    (pd : ProfileData)
    (hded : ((u != ("")) && user_already_in_sheet st.mainRows u) = false)
    (hp : scrape_profile_info_instagram env u = some pd)
    (hf : min_followers < pd.followers_count)
    (hpc : min_posts < pd.posts_count) :
    ((processUserInstagram env st u).mainRows.length = st.mainRows.length + 1 ↔
      min_engagement ≤ engagement_rate_of (get_last_5_posts_stats_instagram env u).1
        (get_last_5_posts_stats_instagram env u).2 pd.followers_count) ∧
    engagement_rate_of (get_last_5_posts_stats_instagram env u).1
        (get_last_5_posts_stats_instagram env u).2 pd.followers_count =
      (((get_last_5_posts_stats_instagram env u).1 : ℚ) +
          ((get_last_5_posts_stats_instagram env u).2 : ℚ)) /
        (pd.followers_count : ℚ) * 100 ∧
    (min_engagement ≤ engagement_rate_of (get_last_5_posts_stats_instagram env u).1
        (get_last_5_posts_stats_instagram env u).2 pd.followers_count →
      (processUserInstagram env st u).mainRows = st.mainRows ++
        [mkInstaRow pd (get_last_5_posts_stats_instagram env u).2
          (get_last_5_posts_stats_instagram env u).1
          (engagement_rate_of (get_last_5_posts_stats_instagram env u).1
            (get_last_5_posts_stats_instagram env u).2 pd.followers_count)]) ∧
    (pd.followers_count = 2000 → get_last_5_posts_stats_instagram env u = (10, 5) →
      engagement_rate_of 10 5 2000 = (0.75 : ℚ) ∧
        min_engagement ≤ engagement_rate_of 10 5 2000) := by
  have hfpos : (0 : ℤ) < pd.followers_count :=
    lt_trans (show (0 : ℤ) < min_followers by norm_num [min_followers]) hf
  have h075 : engagement_rate_of 10 5 2000 = (0.75 : ℚ) := by
    norm_num [engagement_rate_of]
  have hrun : processUserInstagram env st u =
      (if engagement_rate_of (get_last_5_posts_stats_instagram env u).1
          (get_last_5_posts_stats_instagram env u).2 pd.followers_count <
          min_engagement then
        { st with trace := st.trace ++ [Event.profileFetch u, Event.activityFetch u] }
      else
        { mainRows := st.mainRows ++ [mkInstaRow pd
            (get_last_5_posts_stats_instagram env u).2
            (get_last_5_posts_stats_instagram env u).1
            (engagement_rate_of (get_last_5_posts_stats_instagram env u).1
              (get_last_5_posts_stats_instagram env u).2 pd.followers_count)],
          hashtagRows := st.hashtagRows,
          trace := st.trace ++ [Event.profileFetch u, Event.activityFetch u,
            Event.appendRecord pd.username] }) := by
    unfold processUserInstagram append_profile_to_sheet_instagram
    rw [hp]
    simp only [hded, Bool.false_eq_true, if_false, if_pos (And.intro hf hpc)]
    split <;> simp [List.append_assoc]
  refine ⟨?_, ?_, ?_, ?_⟩
  · by_cases her : engagement_rate_of (get_last_5_posts_stats_instagram env u).1
        (get_last_5_posts_stats_instagram env u).2 pd.followers_count < min_engagement
    · rw [hrun, if_pos her]
      exact iff_of_false (by simp) (not_le.mpr her)
    · rw [hrun, if_neg her]
      exact iff_of_true (by simp) (not_lt.mp her)
  · unfold engagement_rate_of
    rw [if_pos hfpos]
  · intro hq
    rw [hrun, if_neg (not_lt.mpr hq)]
  · intro _ _
    exact ⟨h075, by rw [h075]; norm_num [min_engagement]⟩

/-- Concrete environment: discovery finds "alice", whose profile has 2000
followers and 50 posts, and whose single recent post has 10 likes and 5
comments (so medians (10, 5)). -/
def envAlice : Env :=
  ⟨fun _ => Except.ok [some ("alice")],
    fun _ => Except.ok [⟨"pic", 50, 2000, "bio"⟩],
    fun _ => Except.ok [Post.mk 5 10 5], "t"⟩

/-- C2 witness: the theorem applied to the 2000-follower, medians-(10, 5)
environment of the claim's worked example. -/
theorem c2_engagement_threshold_witness :
    (((("alice") != ("")) && user_already_in_sheet ([] : List QRecord) ("alice")) = false ∧
      scrape_profile_info_instagram envAlice ("alice") =
        some ⟨("alice"), "pic", 50, 2000, "bio"⟩ ∧
      min_followers < (2000 : Int) ∧ min_posts < (50 : Int)) ∧
    (((processUserInstagram envAlice ⟨[], [], []⟩ ("alice")).mainRows.length =
        ([] : List QRecord).length + 1 ↔
      min_engagement ≤ engagement_rate_of
        (get_last_5_posts_stats_instagram envAlice ("alice")).1
        (get_last_5_posts_stats_instagram envAlice ("alice")).2
        (ProfileData.mk ("alice") "pic" 50 2000 "bio").followers_count) ∧
    engagement_rate_of (get_last_5_posts_stats_instagram envAlice ("alice")).1
        (get_last_5_posts_stats_instagram envAlice ("alice")).2
        (ProfileData.mk ("alice") "pic" 50 2000 "bio").followers_count =
      (((get_last_5_posts_stats_instagram envAlice ("alice")).1 : ℚ) +
          ((get_last_5_posts_stats_instagram envAlice ("alice")).2 : ℚ)) /
        ((ProfileData.mk ("alice") "pic" 50 2000 "bio").followers_count : ℚ) * 100 ∧
    (min_engagement ≤ engagement_rate_of
        (get_last_5_posts_stats_instagram envAlice ("alice")).1
        (get_last_5_posts_stats_instagram envAlice ("alice")).2
        (ProfileData.mk ("alice") "pic" 50 2000 "bio").followers_count →
      (processUserInstagram envAlice ⟨[], [], []⟩ ("alice")).mainRows =
        ([] : List QRecord) ++
        [mkInstaRow (ProfileData.mk ("alice") "pic" 50 2000 "bio")
          (get_last_5_posts_stats_instagram envAlice ("alice")).2
          (get_last_5_posts_stats_instagram envAlice ("alice")).1
          (engagement_rate_of (get_last_5_posts_stats_instagram envAlice ("alice")).1
            (get_last_5_posts_stats_instagram envAlice ("alice")).2
            (ProfileData.mk ("alice") "pic" 50 2000 "bio").followers_count)]) ∧
    ((ProfileData.mk ("alice") "pic" 50 2000 "bio").followers_count = 2000 →
      get_last_5_posts_stats_instagram envAlice ("alice") = (10, 5) →
      engagement_rate_of 10 5 2000 = (0.75 : ℚ) ∧
        min_engagement ≤ engagement_rate_of 10 5 2000)) :=
  ⟨⟨by decide, rfl, by decide, by decide⟩,
    c2_engagement_threshold envAlice ⟨[], [], []⟩ ("alice")
      ⟨("alice"), "pic", 50, 2000, "bio"⟩ (by decide) rfl (by decide) (by decide)⟩

lemma processUser_profile_error (env : Env) (st : RunState) (u msg : String)
    (h : env.profileItems u = Except.error msg) :
    (processUserInstagram env st u).mainRows = st.mainRows ∧
    (processUserInstagram env st u).hashtagRows = st.hashtagRows := by
  have hs : scrape_profile_info_instagram env u = none := by
    unfold scrape_profile_info_instagram
    rw [h]
  unfold processUserInstagram
  split
  · exact ⟨rfl, rfl⟩
  · rw [hs]
    exact ⟨rfl, rfl⟩

lemma processUser_posts_error (env : Env) (st : RunState) (u msg : String)
    (h : env.postItems u = Except.error msg) :
    (processUserInstagram env st u).mainRows = st.mainRows := by
  have hst : get_last_5_posts_stats_instagram env u = (0, 0) := by
    unfold get_last_5_posts_stats_instagram
    rw [h]
  have her : ∀ fc : Int, engagement_rate_of 0 0 fc < min_engagement := by
    intro fc
    unfold engagement_rate_of
    split <;> norm_num [min_engagement]
  unfold processUserInstagram
  split
  · rfl
  split
  · rfl
  · rename_i pd heq
    split
    · rw [hst]
      dsimp only
      rw [if_pos (her pd.followers_count)]
    · rfl

/-- C3: per-hashtag and per-identity upstream faults are contained in their
own iteration.  A hashtag whose scrape raises contributes nothing and
discovery over the remaining hashtags is unchanged; an identity whose
profile fetch raises changes no durable rows; an identity whose activity
fetch raises persists nothing (its medians fall back to (0, 0), below the
engagement threshold); and iteration simply continues past a failing
identity — the records produced by a run are those of the run without it. -/
theorem c3_error_isolation :
    (∀ (env : Env) (pre post : List String) (t msg : String),
        env.hashtagItems t = Except.error msg →
        fetch_owner_usernames_from_hashtags_instagram env (pre ++ t :: post) =
          fetch_owner_usernames_from_hashtags_instagram env (pre ++ post)) ∧
    (∀ (env : Env) (st : RunState) (u msg : String),
        env.profileItems u = Except.error msg →
        (processUserInstagram env st u).mainRows = st.mainRows ∧
        (processUserInstagram env st u).hashtagRows = st.hashtagRows) ∧
    (∀ (env : Env) (st : RunState) (u msg : String),
        env.postItems u = Except.error msg →
        (processUserInstagram env st u).mainRows = st.mainRows) ∧
    (∀ (env : Env) (st : RunState) (u msg : String) (us : List String),
        env.profileItems u = Except.error msg →
        (runInstagramUsers env (u :: us) st).mainRows =
          (runInstagramUsers env us st).mainRows) := by
  refine ⟨?_, processUser_profile_error, processUser_posts_error, ?_⟩
  · intro env pre post t msg h
    unfold fetch_owner_usernames_from_hashtags_instagram
    rw [List.foldl_append, List.foldl_append, List.foldl_cons]
    congr 1
    simp only [h]
  · intro env st u msg us h
    have h1 : (runInstagramUsers env (u :: us) st) =
        runInstagramUsers env us (processUserInstagram env st u) := rfl
    rw [h1]
    exact runUsers_mainRows_congr env us _ st
      (processUser_profile_error env st u msg h).1

/-- Concrete environment whose hashtag scrape fails on "#bad" and whose
profile fetch fails on every username. -/
def envFail : Env :=
  ⟨fun t => if t == ("#bad") then Except.error ("boom") else Except.ok [some ("carl")],
    fun _ => Except.error ("boom"), fun _ => Except.error ("boom"), "t"⟩

/-- C3 witness: each conjunct applied at a concrete faulting environment. -/
theorem c3_error_isolation_witness :
    (envFail.hashtagItems ("#bad") = Except.error ("boom") ∧
      envFail.profileItems ("carl") = Except.error ("boom") ∧
      envFail.postItems ("carl") = Except.error ("boom")) ∧
    fetch_owner_usernames_from_hashtags_instagram envFail ([("#ok")] ++ ("#bad") :: [("#ok2")]) =
      fetch_owner_usernames_from_hashtags_instagram envFail ([("#ok")] ++ [("#ok2")]) ∧
    (processUserInstagram envFail ⟨[], [], []⟩ ("carl")).mainRows = ([] : List QRecord) ∧
    (runInstagramUsers envFail [("carl"), ("dora")] ⟨[], [], []⟩).mainRows =
      (runInstagramUsers envFail [("dora")] ⟨[], [], []⟩).mainRows :=
  ⟨⟨rfl, rfl, rfl⟩,
    c3_error_isolation.1 envFail [("#ok")] [("#ok2")] ("#bad") ("boom") rfl,
    (c3_error_isolation.2.1 envFail ⟨[], [], []⟩ ("carl") ("boom") rfl).1,
    c3_error_isolation.2.2.2 envFail ⟨[], [], []⟩ ("carl") ("boom") [("dora")] rfl⟩

/-- C9: whenever the raw input passes validation and normalizes to a
non-empty hashtag list, the run appends exactly one audit row — carrying the
timestamp, the raw input and the normalized hashtags — and appends it before
the identity iteration begins: the trace extends the prior trace with the
audit-append event first, and no further audit-append event ever follows,
however the iteration concludes. -/
theorem c9_single_audit_first (env : Env) (input : String) (st : RunState)
    (h1 : pyStrip input ≠ "") (h2 : parseHashtags input ≠ []) :
    (mainInstagram env input st).hashtagRows = st.hashtagRows ++
      [⟨env.now, input, String.intercalate (", ") (parseHashtags input)⟩] ∧
    ∃ ext, (mainInstagram env input st).trace =
        st.trace ++ Event.appendAudit :: ext ∧ Event.appendAudit ∉ ext := by
  unfold mainInstagram
  dsimp only
  rw [if_neg h1, if_neg h2]
  constructor
  · rw [runUsers_hashtagRows]
    rfl
  · obtain ⟨ext, hext, hnm⟩ := runUsers_trace_extend env
      (fetch_owner_usernames_from_hashtags_instagram env (parseHashtags input))
      (append_hashtags_to_sheet env st input (parseHashtags input))
    refine ⟨ext, ?_, hnm⟩
    rw [hext]
    simp [append_hashtags_to_sheet, List.append_assoc]

/-- C9 witness: the theorem applied to the concrete input "#a". -/
theorem c9_single_audit_first_witness :
    (pyStrip ("#a") ≠ ("") ∧ parseHashtags ("#a") ≠ []) ∧
    (mainInstagram envTriv ("#a") ⟨[], [], []⟩).hashtagRows = ([] : List AuditRow) ++
      [⟨envTriv.now, ("#a"), String.intercalate (", ") (parseHashtags ("#a"))⟩] ∧
    ∃ ext, (mainInstagram envTriv ("#a") ⟨[], [], []⟩).trace =
        ([] : List Event) ++ Event.appendAudit :: ext ∧ Event.appendAudit ∉ ext :=
  ⟨⟨by decide, by decide⟩,
    c9_single_audit_first envTriv ("#a") ⟨[], [], []⟩ (by decide) (by decide)⟩

/-! Sorting facts shared by the median claims. -/

lemma sortByTimeDesc_perm (ps : List Post) : (sortByTimeDesc ps).Perm ps :=
  List.perm_insertionSort timeGe ps

lemma sortByTimeDesc_sorted (ps : List Post) : List.Sorted timeGe (sortByTimeDesc ps) :=
  List.sorted_insertionSort timeGe ps

lemma sortByTimeDesc_eq_nil_iff (ps : List Post) : sortByTimeDesc ps = [] ↔ ps = [] := by
  constructor
  · intro h
    have hper := sortByTimeDesc_perm ps
    rw [h] at hper
    exact hper.nil_eq.symm
  · intro h
    subst h
    rfl

lemma medianTrunc_perm (l l' : List Int) (h : l.Perm l') :
    medianTrunc l = medianTrunc l' := by
  have hs : sortedAsc l = sortedAsc l' :=
    List.eq_of_perm_of_sorted
      (((List.perm_insertionSort _ l).trans h).trans
        (List.perm_insertionSort _ l').symm)
      (List.sorted_insertionSort (fun a b => a ≤ b) l)
      (List.sorted_insertionSort (fun a b => a ≤ b) l')
  unfold medianTrunc
  rw [hs, h.length_eq]

/-- C5: the medians a run computes (for either platform) are exactly the
truncated medians over a choice of min(5, n) samples that dominate all
remaining samples in timestamp — the 5 most recent ones — and an empty
sample set yields (0, 0). -/
theorem c5_top5_medians :
    (∀ (env : Env) (u : String) (posts : List Post),
        env.postItems u = Except.ok posts →
        get_last_5_posts_stats_instagram env u = statsOf posts) ∧
    (∀ (u : String) (m : PostsMap),
        (get_last_5_posts_stats_tiktok u m).1 = statsOf (lookupPosts m u)) ∧
    statsOf [] = (0, 0) ∧
    (∀ posts : List Post, ∃ chosen rest : List Post,
        (chosen ++ rest).Perm posts ∧
        chosen.length = min 5 posts.length ∧
        (∀ a ∈ chosen, ∀ b ∈ rest, b.time ≤ a.time) ∧
        statsOf posts = (medianTrunc (chosen.map Post.likes),
          medianTrunc (chosen.map Post.comments))) := by
  refine ⟨?_, ?_, rfl, ?_⟩
  · intro env u posts h
    unfold get_last_5_posts_stats_instagram
    rw [h]
  · intro u m
    unfold get_last_5_posts_stats_tiktok statsOf
    dsimp only
    split
    · rfl
    · split <;> rfl
  · intro posts
    refine ⟨(sortByTimeDesc posts).take 5, (sortByTimeDesc posts).drop 5, ?_, ?_, ?_, ?_⟩
    · rw [List.take_append_drop]
      exact sortByTimeDesc_perm posts
    · rw [List.length_take, (sortByTimeDesc_perm posts).length_eq]
    · intro a ha b hb
      exact (sortByTimeDesc_sorted posts).rel_of_mem_take_of_mem_drop ha hb
    · by_cases hp : posts = []
      · subst hp
        rfl
      · unfold statsOf
        rw [if_neg hp]
        have hsnil : sortByTimeDesc posts ≠ [] :=
          fun h0 => hp ((sortByTimeDesc_eq_nil_iff posts).mp h0)
        have htake : (sortByTimeDesc posts).take 5 ≠ [] := by
          simp [List.take_eq_nil_iff, hsnil]
        rw [if_neg (by simp only [List.map_eq_nil_iff]; exact htake)]

/-- C5 witness: the first conjunct applied at a concrete environment. -/
theorem c5_top5_medians_witness :
    envAlice.postItems ("alice") = Except.ok [Post.mk 5 10 5] ∧
    get_last_5_posts_stats_instagram envAlice ("alice") = statsOf [Post.mk 5 10 5] :=
  ⟨rfl, c5_top5_medians.1 envAlice ("alice") [Post.mk 5 10 5] rfl⟩

/-- C7 (amended: restricted to sample lists of at most 5 entries, the case
where truncation keeps everything): the computed medians are invariant under
permutation of the input samples.  For longer lists with timestamp ties
across the top-5 boundary the property fails — see the counterexample. -/
theorem c7_median_order_invariance (l1 l2 : List Post) (hp : l1.Perm l2)
    (hlen : l1.length ≤ 5) : statsOf l1 = statsOf l2 := by
  by_cases h1 : l1 = []
  · subst h1
    rw [hp.nil_eq.symm]
  · have h2 : l2 ≠ [] := by
      intro hh
      rw [hh] at hp
      exact h1 hp.eq_nil
    have hlen2 : l2.length ≤ 5 := hp.length_eq ▸ hlen
    have htake1 : (sortByTimeDesc l1).take 5 = sortByTimeDesc l1 :=
      List.take_of_length_le (by rw [(sortByTimeDesc_perm l1).length_eq]; exact hlen)
    have htake2 : (sortByTimeDesc l2).take 5 = sortByTimeDesc l2 :=
      List.take_of_length_le (by rw [(sortByTimeDesc_perm l2).length_eq]; exact hlen2)
    have hlp : ((sortByTimeDesc l1).map Post.likes).Perm
        ((sortByTimeDesc l2).map Post.likes) :=
      (((sortByTimeDesc_perm l1).map _).trans (hp.map _)).trans
        ((sortByTimeDesc_perm l2).map _).symm
    have hcp : ((sortByTimeDesc l1).map Post.comments).Perm
        ((sortByTimeDesc l2).map Post.comments) :=
      (((sortByTimeDesc_perm l1).map _).trans (hp.map _)).trans
        ((sortByTimeDesc_perm l2).map _).symm
    have hn1 : (sortByTimeDesc l1).map Post.likes ≠ [] := fun h0 =>
      h1 ((sortByTimeDesc_eq_nil_iff l1).mp (List.map_eq_nil_iff.mp h0))
    have hn2 : (sortByTimeDesc l2).map Post.likes ≠ [] := fun h0 =>
      h2 ((sortByTimeDesc_eq_nil_iff l2).mp (List.map_eq_nil_iff.mp h0))
    unfold statsOf
    rw [if_neg h1, if_neg h2]
    dsimp only
    rw [htake1, htake2, if_neg hn1, if_neg hn2,
      medianTrunc_perm _ _ hlp, medianTrunc_perm _ _ hcp]

/-- C7 witness: the amended theorem applied to two concrete permutations of
a two-sample list. -/
theorem c7_median_order_invariance_witness :
    (([Post.mk 1 3 1, Post.mk 0 4 2]).Perm [Post.mk 0 4 2, Post.mk 1 3 1] ∧
      ([Post.mk 1 3 1, Post.mk 0 4 2] : List Post).length ≤ 5) ∧
    statsOf [Post.mk 1 3 1, Post.mk 0 4 2] = statsOf [Post.mk 0 4 2, Post.mk 1 3 1] :=
  ⟨⟨by decide, by decide⟩,
    c7_median_order_invariance [Post.mk 1 3 1, Post.mk 0 4 2]
      [Post.mk 0 4 2, Post.mk 1 3 1] (by decide) (by decide)⟩

/-- C7 counterexample: the claim as stated (invariance for all permutations,
ties included) is false.  Six samples share one timestamp; the stable
recency sort leaves them in input order, so truncation to 5 keeps different
samples for the two orders: medians (100, 0) versus (0, 0). -/
theorem c7_median_order_invariance_cex :
    ([Post.mk 0 100 0, Post.mk 0 100 0, Post.mk 0 100 0,
        Post.mk 0 0 0, Post.mk 0 0 0, Post.mk 0 0 0]).Perm
      [Post.mk 0 0 0, Post.mk 0 0 0, Post.mk 0 0 0,
        Post.mk 0 100 0, Post.mk 0 100 0, Post.mk 0 100 0] ∧
    statsOf [Post.mk 0 100 0, Post.mk 0 100 0, Post.mk 0 100 0,
        Post.mk 0 0 0, Post.mk 0 0 0, Post.mk 0 0 0] ≠
      statsOf [Post.mk 0 0 0, Post.mk 0 0 0, Post.mk 0 0 0,
        Post.mk 0 100 0, Post.mk 0 100 0, Post.mk 0 100 0] := by
  decide

lemma find_some_of_nodup (m : PostsMap) (u : String) (e : String × List Post)
    (he : e ∈ m) (hk : e.1 = u) (hnd : (m.map Prod.fst).Nodup) :
    m.find? (fun x => x.1 == u) = some e := by
  induction m with
  | nil => cases he
  | cons h t ih =>
      rw [List.map_cons, List.nodup_cons] at hnd
      simp only [List.find?]
      by_cases hh : (h.1 == u) = true
      · simp only [hh]
        rcases List.mem_cons.mp he with rfl | ht
        · rfl
        · exfalso
          apply hnd.1
          have heq : h.1 = u := by simpa using hh
          rw [heq, ← hk]
          exact List.mem_map.mpr ⟨e, ht, rfl⟩
      · rw [Bool.not_eq_true] at hh
        simp only [hh]
        rcases List.mem_cons.mp he with rfl | ht
        · exact absurd (beq_iff_eq.mpr hk) (by simp [hh])
        · exact ih ht hnd.2

lemma tiktok_map_shape (u : String) (m : PostsMap) :
    (get_last_5_posts_stats_tiktok u m).2 =
      if lookupPosts m u = [] then m
      else setPosts m u (sortByTimeDesc (lookupPosts m u)) := by
  unfold get_last_5_posts_stats_tiktok
  dsimp only
  split
  · rfl
  · split <;> rfl

/-- C8 (amended): computing the TikTok medians never changes the side
channel's keys or any identity's multiset of samples, and entries for other
identities are untouched; but the queried identity's post list is sorted in
place, so the map after the call is only guaranteed equal up to that
reordering, not identical (see the counterexample). -/
theorem c8_side_channel_frame (u : String) (m : PostsMap)
    (hnd : (m.map Prod.fst).Nodup) :
    (get_last_5_posts_stats_tiktok u m).2.map Prod.fst = m.map Prod.fst ∧
    List.Forall₂ (fun a b => a.2.Perm b.2 ∧ (a.1 ≠ u → b = a)) m
      (get_last_5_posts_stats_tiktok u m).2 := by
  rw [tiktok_map_shape]
  by_cases h : lookupPosts m u = []
  · rw [if_pos h]
    exact ⟨rfl, List.forall₂_same.mpr fun e _ => ⟨List.Perm.refl _, fun _ => rfl⟩⟩
  · rw [if_neg h]
    unfold setPosts
    constructor
    · rw [List.map_map]
      apply List.map_congr_left
      intro e _
      by_cases hh : (e.1 == u) = true
      · have heq : e.1 = u := by simpa using hh
        simp [hh, heq]
      · have hne : e.1 ≠ u := by simpa using hh
        simp [hne]
    · rw [List.forall₂_map_right_iff, List.forall₂_same]
      intro e he
      by_cases hh : (e.1 == u) = true
      · have hk : e.1 = u := by simpa using hh
        have hl : lookupPosts m u = e.2 := by
          unfold lookupPosts
          rw [find_some_of_nodup m u e he hk hnd]
          rfl
        refine ⟨?_, fun hne => absurd hk hne⟩
        rw [if_pos hh]
        rw [hl]
        exact (sortByTimeDesc_perm e.2).symm
      · have hne : e.1 ≠ u := by simpa using hh
        simp [hne]

/-- C8 witness: the amended theorem applied to a concrete one-entry map. -/
theorem c8_side_channel_frame_witness :
    (([(("u"), [Post.mk 0 1 1])] : PostsMap).map Prod.fst).Nodup ∧
    ((get_last_5_posts_stats_tiktok ("u")
        [(("u"), [Post.mk 0 1 1])]).2.map Prod.fst =
      ([(("u"), [Post.mk 0 1 1])] : PostsMap).map Prod.fst ∧
    List.Forall₂ (fun a b => a.2.Perm b.2 ∧ (a.1 ≠ ("u") → b = a))
      [(("u"), [Post.mk 0 1 1])]
      (get_last_5_posts_stats_tiktok ("u") [(("u"), [Post.mk 0 1 1])]).2) :=
  ⟨by decide, c8_side_channel_frame ("u") [(("u"), [Post.mk 0 1 1])] (by decide)⟩

/-- C8 counterexample: the claim as stated (the map is identical before and
after) is false.  The in-place `user_posts.sort(...)` at source line 229
reorders the stored list of the queried identity: for a map holding two
posts in ascending time order, the map after the call holds them in
descending order, so it differs from the map before. -/
theorem c8_side_channel_frame_cex :
    (get_last_5_posts_stats_tiktok ("u")
        [(("u"), [Post.mk 0 1 1, Post.mk 1 2 2])]).2 ≠
      [(("u"), [Post.mk 0 1 1, Post.mk 1 2 2])] := by
  decide

lemma getD_sortedAsc_nonneg (l : List Int) (hl : ∀ x ∈ l, 0 ≤ x) (i : ℕ) :
    0 ≤ (sortedAsc l).getD i 0 := by
  rcases lt_or_le i (sortedAsc l).length with h | h
  · rw [List.getD_eq_getElem _ _ h]
    exact hl _ ((List.perm_insertionSort _ l).mem_iff.mp (List.getElem_mem h))
  · rw [List.getD_eq_default _ _ h]

/-- C10: the medians the code computes and persists are integer-valued —
`int(np.median(...))`, i.e. the truncation of the exact median: for
nonnegative sample values the persisted median k satisfies
true median = k (when the median is integral) or true median = k + 1/2
(the even-length half case, truncated down).  Concretely, likes [3, 4] and
comments [1, 2] persist medians (3, 1) although the true medians are 7/2
and 3/2. -/
theorem c10_median_truncation :
    (∀ l : List Int, (∀ x ∈ l, 0 ≤ x) →
        ∃ k : ℤ, medianTrunc l = k ∧
          (trueMedian l = (k : ℚ) ∨ trueMedian l = (k : ℚ) + 1/2)) ∧
    statsOf [Post.mk 0 3 1, Post.mk 1 4 2] = (3, 1) ∧
    medianTrunc [3, 4] = 3 ∧ trueMedian [3, 4] = 7/2 := by
  have hgen : ∀ l : List Int, (∀ x ∈ l, 0 ≤ x) →
      ∃ k : ℤ, medianTrunc l = k ∧
        (trueMedian l = (k : ℚ) ∨ trueMedian l = (k : ℚ) + 1/2) := by
    intro l hl
    by_cases hpar : l.length % 2 = 1
    · refine ⟨(sortedAsc l).getD (l.length / 2) 0, ?_, Or.inl ?_⟩
      · unfold medianTrunc
        rw [if_pos hpar]
      · unfold trueMedian
        rw [if_pos hpar]
    · have ha := getD_sortedAsc_nonneg l hl (l.length / 2 - 1)
      have hb := getD_sortedAsc_nonneg l hl (l.length / 2)
      have hm1 : medianTrunc l = Int.tdiv ((sortedAsc l).getD (l.length / 2 - 1) 0 +
          (sortedAsc l).getD (l.length / 2) 0) 2 := by
        unfold medianTrunc
        rw [if_neg hpar]
      have hm2 : trueMedian l = (((sortedAsc l).getD (l.length / 2 - 1) 0 +
          (sortedAsc l).getD (l.length / 2) 0 : ℤ) : ℚ) / 2 := by
        unfold trueMedian
        rw [if_neg hpar]
      obtain ⟨n, hn⟩ : ∃ n : ℕ, (sortedAsc l).getD (l.length / 2 - 1) 0 +
          (sortedAsc l).getD (l.length / 2) 0 = (n : ℤ) :=
        ⟨_, (Int.toNat_of_nonneg (add_nonneg ha hb)).symm⟩
      rw [hn] at hm1 hm2
      have htd : Int.tdiv ((n : ℤ)) 2 = ((n / 2 : ℕ) : ℤ) := rfl
      refine ⟨((n / 2 : ℕ) : ℤ), by rw [hm1, htd], ?_⟩
      rcases Nat.even_or_odd n with ⟨m, hm⟩ | ⟨m, hm⟩
      · left
        subst hm
        rw [hm2, show (m + m) / 2 = m from by omega]
        push_cast
        ring
      · right
        subst hm
        rw [hm2, show (2 * m + 1) / 2 = m from by omega]
        push_cast
        ring
  refine ⟨hgen, by decide, by decide, ?_⟩
  have hs : sortedAsc [3, 4] = [(3 : ℤ), 4] := by decide
  unfold trueMedian
  rw [hs]
  norm_num [List.getD]

/-- C10 witness: the general conjunct applied to the even-length list
[3, 4], whose true median 7/2 is persisted as 3. -/
theorem c10_median_truncation_witness :
    (∀ x ∈ ([3, 4] : List Int), 0 ≤ x) ∧
    ∃ k : ℤ, medianTrunc [3, 4] = k ∧
      (trueMedian [3, 4] = (k : ℚ) ∨ trueMedian [3, 4] = (k : ℚ) + 1/2) :=
  ⟨by decide, c10_median_truncation.1 [3, 4] (by decide)⟩

end InfluencerScraper
